import Mathlib

/-!
# Verification of the API Gateway automation layer

Shallow embedding of `api_resource.py` and `api_gateway.py`.

The remote AWS API Gateway control plane is modelled as an explicit state
(`AWSState`): the listing of resources, the append-only deployment list, the
stage table, a fresh-id counter, a trace of every remote call issued, and an
injectable fault for the stage operations (to model remote failures other
than "stage not found").  The Python classes `APIResource` and `APIGateway`
become Lean structures, and their methods become functions threading the
remote state explicitly.  Python `dict` keyword arguments are association
lists with Python's insertion-order update semantics.
-/

namespace AwsGw

/-- A Python value as it appears in keyword arguments / request parameters.
Dict-valued options (e.g. `request_templates`) are string-to-string maps. -/
inductive Value where
  | str : String → Value
  | bool : Bool → Value
  | nat : Nat → Value
  | strMap : List (String × String) → Value
  deriving DecidableEq, Repr

/-- Keys of a Python dict modelled as an association list. -/
def dictKeys {β : Type} (d : List (String × β)) : List String :=
  d.map Prod.fst

/-- Python `d.get(k)` on an association list. -/
def dictGet {β : Type} (d : List (String × β)) (k : String) : Option β :=
  (d.find? (fun p => p.1 = k)).map Prod.snd

/-- Python `d[k] = v`: replace in place when the key is present (keeping
insertion order), append otherwise. -/
def dictSet {β : Type} (d : List (String × β)) (k : String) (v : β) :
    List (String × β) :=
  match d with
  | [] => [(k, v)]
  | (k', v') :: rest =>
      if k' = k then (k, v) :: rest else (k', v') :: dictSet rest k v

/-- Python `str.upper` on a single character (ASCII fragment, which is all the
code ever feeds it: HTTP verbs). -/
def upperChar (c : Char) : Char :=
  if 97 ≤ c.toNat ∧ c.toNat ≤ 122 then Char.ofNat (c.toNat - 32) else c

/-- Python `str.upper` (ASCII fragment). -/
def pyUpper (s : String) : String :=
  ⟨s.data.map upperChar⟩

/-- Python `s.rstrip("/")`: drop every trailing `'/'`. -/
def rstripSlash (s : String) : String :=
  ⟨(s.data.reverse.dropWhile (fun c => c = '/')).reverse⟩

/-- Python truthiness of an optional string: `None` and `""` are falsy. -/
def truthy : Option String → Bool
  | none => false
  | some s => s ≠ ""

/-- Python `a or b` for an optional string `a` and a string `b`. -/
def orElseStr (a : Option String) (b : String) : String :=
  match a with
  | none => b
  | some s => if s = "" then b else s

/-! ## The remote control plane -/

/-- One record in the remote service's resource listing
(`get_resources(...)["items"]`). -/
structure RemoteResource where
  id : String
  parentId : Option String
  pathPart : Option String
  path : String
  deriving DecidableEq, Repr

/-- A remote deployment record. Deployments are append-only. -/
structure Deployment where
  id : String
  description : String
  deriving DecidableEq, Repr

/-- A remote stage record: a named mutable pointer to a deployment. -/
structure Stage where
  stageName : String
  deploymentId : String
  description : String
  stageVariables : List (String × String)
  deriving DecidableEq, Repr

/-- One `patchOperations` entry of `update_stage`. -/
structure PatchOp where
  op : String
  path : String
  value : String
  deriving DecidableEq, Repr

/-- A remote call, as recorded in the trace of the model state. -/
inductive RemoteCall where
  | getResources
  | createResource (parentId pathPart : String)
  | createDeployment (description : String)
  | getStage (stageName : String)
  | updateStage (stageName : String) (patchOperations : List PatchOp)
  | createStage (stageName deploymentId description : String)
  | putMethod (resourceId httpMethod : String)
  | putMethodResponse (resourceId httpMethod statusCode : String)
  | putIntegration (params : List (String × Value))
  | putIntegrationResponse (resourceId httpMethod statusCode : String)
  deriving DecidableEq, Repr

/-- Errors raised by the embedded code. `notFound` models the service's
`NotFoundException`; `remote` models any other service-side failure;
`valueError` models Python `ValueError`s raised locally. -/
inductive Err where
  | notFound
  | remote (msg : String)
  | valueError (msg : String)
  deriving DecidableEq, Repr

/-- The remote control plane state, together with the issued-call trace and an
injectable fault for the stage operations. -/
structure AWSState where
  resources : List RemoteResource
  deployments : List Deployment
  stages : List Stage
  nextId : Nat
  calls : List RemoteCall
  stageFault : Option String
  deriving DecidableEq, Repr

namespace AWSState

/-- Remote `get_resources`: list the resource records (and record the call). -/
def getResources (s : AWSState) : List RemoteResource × AWSState :=
  (s.resources, { s with calls := s.calls ++ [RemoteCall.getResources] })

/-- Remote `create_resource`: requires the parent to exist,
mints a fresh id, computes the service-side path, appends the record. -/
def createResource (s : AWSState) (parentId pathPart : String) :
    Except Err RemoteResource × AWSState :=
  let s := { s with calls := s.calls ++ [RemoteCall.createResource parentId pathPart] }
  match s.resources.find? (fun r => r.id = parentId) with
  | none => (Except.error Err.notFound, s)
  | some parent =>
      let freshId := "res" ++ toString s.nextId
      let childPath :=
        if parent.path = "/" then "/" ++ pathPart else parent.path ++ "/" ++ pathPart
      let r : RemoteResource :=
        { id := freshId, parentId := some parentId, pathPart := some pathPart,
          path := childPath }
      (Except.ok r,
        { s with resources := s.resources ++ [r], nextId := s.nextId + 1 })

/-- Remote `create_deployment`: mint a fresh deployment id and append the record. -/
def createDeployment (s : AWSState) (description : String) :
    Deployment × AWSState :=
  let d : Deployment := { id := "dep" ++ toString s.nextId, description }
  (d, { s with
          deployments := s.deployments ++ [d],
          nextId := s.nextId + 1,
          calls := s.calls ++ [RemoteCall.createDeployment description] })

/-- Remote `get_stage`: fails with the injected fault when one is set, raises
`NotFoundException` when no stage has the name, returns the record otherwise. -/
def getStage (s : AWSState) (stageName : String) :
    Except Err Stage × AWSState :=
  let s := { s with calls := s.calls ++ [RemoteCall.getStage stageName] }
  match s.stageFault with
  | some msg => (Except.error (Err.remote msg), s)
  | none =>
      match s.stages.find? (fun st => st.stageName = stageName) with
      | none => (Except.error Err.notFound, s)
      | some st => (Except.ok st, s)

/-- Apply one patch operation to a stage record (`replace` on the paths the
service supports on stages). -/
def applyPatchOp (st : Stage) (p : PatchOp) : Stage :=
  if p.op = "replace" then
    if p.path = "/deploymentId" then { st with deploymentId := p.value }
    else if p.path = "/description" then { st with description := p.value }
    else st
  else st

/-- Remote `update_stage`: apply the patch operations to the named stage. -/
def updateStage (s : AWSState) (stageName : String) (ops : List PatchOp) :
    Except Err Stage × AWSState :=
  let s := { s with calls := s.calls ++ [RemoteCall.updateStage stageName ops] }
  match s.stageFault with
  | some msg => (Except.error (Err.remote msg), s)
  | none =>
      match s.stages.find? (fun st => st.stageName = stageName) with
      | none => (Except.error Err.notFound, s)
      | some st =>
          let st' := ops.foldl applyPatchOp st
          (Except.ok st',
            { s with stages :=
                s.stages.map (fun t => if t.stageName = stageName then st' else t) })

/-- Remote `create_stage`: append a new stage bound to the given deployment. -/
def createStage (s : AWSState) (stageName deploymentId description : String) :
    Except Err Stage × AWSState :=
  let s := { s with
    calls := s.calls ++ [RemoteCall.createStage stageName deploymentId description] }
  match s.stageFault with
  | some msg => (Except.error (Err.remote msg), s)
  | none =>
      let st : Stage :=
        { stageName, deploymentId, description, stageVariables := [] }
      (Except.ok st, { s with stages := s.stages ++ [st] })

/-- Remote `put_method`: accepted by the remote service; recorded in the trace. -/
def putMethod (s : AWSState) (resourceId httpMethod : String) :
    Value × AWSState :=
  (Value.strMap [("httpMethod", httpMethod)],
    { s with calls := s.calls ++ [RemoteCall.putMethod resourceId httpMethod] })

/-- Remote `put_method_response`: recorded in the trace. -/
def putMethodResponse (s : AWSState) (resourceId httpMethod statusCode : String) :
    AWSState :=
  { s with calls :=
      s.calls ++ [RemoteCall.putMethodResponse resourceId httpMethod statusCode] }

/-- Remote `put_integration`: the outgoing parameters are recorded in the trace and
echoed in the response. -/
def putIntegration (s : AWSState) (params : List (String × Value)) :
    Value × AWSState :=
  (Value.strMap [("status", "OK")],
    { s with calls := s.calls ++ [RemoteCall.putIntegration params] })

/-- Remote `put_integration_response`: recorded in the trace. -/
def putIntegrationResponse (s : AWSState)
    (resourceId httpMethod statusCode : String) : AWSState :=
  { s with calls :=
      s.calls ++ [RemoteCall.putIntegrationResponse resourceId httpMethod statusCode] }

end AWSState

/-! ## The client classes -/

/-- Class `api_resource.APIResource`: local handle on one resource node.
`methods` is the Python `self.methods` dict (verb → `put_method` response). -/
structure APIResource where
  api_id : String
  resource_id : String
  path : String
  methods : List (String × Value)
  deriving DecidableEq, Repr

/-- Constructor `APIResource.__init__`: the methods dict starts empty. -/
def APIResource.mk' (api_id resource_id path : String) : APIResource :=
  { api_id, resource_id, path, methods := [] }

/-- Method `APIResource.add_method`: issue `put_method`, store the response under the
uppercased verb, issue `put_method_response` for status 200. In the model the
remote service accepts the method, so the call always succeeds. Returns the
response together with the updated handle. -/
def APIResource.add_method (s : AWSState) (r : APIResource)
    (http_method : String) : (Value × APIResource) × AWSState :=
  let (response, s) := s.putMethod r.resource_id (pyUpper http_method)
  let r := { r with methods := dictSet r.methods (pyUpper http_method) response }
  let s := s.putMethodResponse r.resource_id (pyUpper http_method) "200"
  ((response, r), s)

/-- The `snake_to_camel` translation table of `add_integration`. -/
def snakeToCamel : List (String × String) :=
  [("connection_type", "connectionType"),
   ("connection_id", "connectionId"),
   ("request_parameters", "requestParameters"),
   ("request_templates", "requestTemplates"),
   ("passthrough_behavior", "passthroughBehavior"),
   ("cache_namespace", "cacheNamespace"),
   ("cache_key_parameters", "cacheKeyParameters"),
   ("content_handling", "contentHandling"),
   ("timeout_in_millis", "timeoutInMillis"),
   ("tls_config", "tlsConfig")]

/-- The set `valid_params = set(snake_to_camel.values())`. -/
def validParams : List String :=
  snakeToCamel.map Prod.snd

/-- Lookup `snake_to_camel.get(key, key)`. -/
def camelOf (key : String) : String :=
  ((snakeToCamel.find? (fun p => p.1 = key)).map Prod.snd).getD key

/-- The kwargs-filtering loop of `add_integration`: translate each recognized
key to its wire name and set it in `params`; collect a warning for each
dropped key. -/
def filterKwargs (params : List (String × Value)) (warnings : List String)
    (kwargs : List (String × Value)) : List (String × Value) × List String :=
  match kwargs with
  | [] => (params, warnings)
  | (key, value) :: rest =>
      let camelKey := camelOf key
      if camelKey ∈ validParams then
        filterKwargs (dictSet params camelKey value) warnings rest
      else
        filterKwargs params
          (warnings ++
            ["Warning: Ignoring invalid parameter " ++ key ++ " for put_integration"])
          rest

/-- The `params` dict of `add_integration` before the kwargs loop: the four
base fields and the truthiness-guarded `uri`, `integrationHttpMethod` (the
`integration_http_method or http_method.upper()` default) and `credentials`. -/
def baseParams (r : APIResource) (http_method integration_type : String)
    (integration_http_method uri credentials : Option String) :
    List (String × Value) :=
  let ihm := orElseStr integration_http_method (pyUpper http_method)
  let params : List (String × Value) :=
    [("restApiId", Value.str r.api_id),
     ("resourceId", Value.str r.resource_id),
     ("httpMethod", Value.str (pyUpper http_method)),
     ("type", Value.str integration_type)]
  let params := if truthy uri then dictSet params "uri" (Value.str (uri.getD "")) else params
  let params := if ihm ≠ "" then dictSet params "integrationHttpMethod" (Value.str ihm) else params
  if truthy credentials then
    dictSet params "credentials" (Value.str (credentials.getD ""))
  else params

/-- Method `APIResource.add_integration`. Checks the method-registered precondition,
assembles the `put_integration` parameters (base fields, the truthiness-guarded
optional fields, then the whitelisted kwargs), issues `put_integration` and
`put_integration_response`. Returns the response, the remote state, and the
warnings printed for dropped kwargs. -/
def APIResource.add_integration (s : AWSState) (r : APIResource)
    (http_method integration_type : String)
    (integration_http_method uri credentials : Option String)
    (kwargs : List (String × Value)) :
    Except Err Value × AWSState × List String :=
  if pyUpper http_method ∉ dictKeys r.methods then
    (Except.error (Err.valueError
      ("Method " ++ http_method ++ " not found on resource " ++ r.path)), s, [])
  else
    let params :=
      baseParams r http_method integration_type integration_http_method uri credentials
    let (params, warnings) := filterKwargs params [] kwargs
    let (response, s) := s.putIntegration params
    let s := s.putIntegrationResponse r.resource_id (pyUpper http_method) "200"
    (Except.ok response, s, warnings)

/-- Class `api_gateway.APIGateway`: region, the api id (set after creation), and the
`resource_id → APIResource` cache. -/
structure APIGateway where
  region : String
  api_id : Option String
  resourcesCache : List (String × APIResource)
  deriving DecidableEq, Repr

/-- The existing-resource scan of `APIGateway.create_resource`: the first
listed item whose `parentId` is the parent's id and whose `pathPart` is the
requested segment. -/
def findChild (items : List RemoteResource) (parentId pathPart : String) :
    Option RemoteResource :=
  items.find? (fun item =>
    item.parentId = some parentId ∧ item.pathPart = some pathPart)

/-- The `full_path` expression of `APIGateway.create_resource`. -/
def joinPath (parentPath pathPart : String) : String :=
  if parentPath ≠ "/" then rstripSlash parentPath ++ "/" ++ pathPart
  else "/" ++ pathPart

/-- Method `APIGateway.create_resource`: fail fast when no api id is set; list the
resources and return a handle on an existing (parent, pathPart) child if one
is listed; otherwise create the child remotely, compute the full path, and
cache the new handle. -/
def APIGateway.create_resource (s : AWSState) (g : APIGateway)
    (parent : APIResource) (path_part : String) :
    Except Err (APIResource × APIGateway) × AWSState :=
  match g.api_id with
  | none =>
      (Except.error (Err.valueError
        "API Gateway not created. Call create_rest_api_gateway first."), s)
  | some apiId =>
      let (items, s) := s.getResources
      match findChild items parent.resource_id path_part with
      | some item =>
          (Except.ok (APIResource.mk' apiId item.id item.path, g), s)
      | none =>
          match s.createResource parent.resource_id path_part with
          | (Except.error e, s) => (Except.error e, s)
          | (Except.ok response, s) =>
              let fullPath := joinPath parent.path path_part
              let resource := APIResource.mk' apiId response.id fullPath
              let g := { g with
                resourcesCache := dictSet g.resourcesCache response.id resource }
              (Except.ok (resource, g), s)

/-- The record returned by a successful `deploy_to_stage`. -/
structure DeployResult where
  deployment : Deployment
  stage : Stage
  url : String
  deriving DecidableEq, Repr

/-- Method `APIGateway.deploy_to_stage`: fail fast without an api id; create a fresh
deployment; look the stage up by name; on success patch its `/deploymentId`,
on `NotFoundException` create it; any other stage failure propagates. Returns
the deployment, the stage, and the locally built invoke URL. -/
def APIGateway.deploy_to_stage (s : AWSState) (g : APIGateway)
    (stage_name : String) (stage_description : String := "")
    (description : String := "Deployment") :
    Except Err DeployResult × AWSState :=
  match g.api_id with
  | none =>
      (Except.error (Err.valueError
        "API Gateway not created. Call create_rest_api_gateway first."), s)
  | some apiId =>
      let (deployment, s) := s.createDeployment description
      let (stageResult, s) :=
        match s.getStage stage_name with
        | (Except.ok _, s) =>
            s.updateStage stage_name
              [{ op := "replace", path := "/deploymentId", value := deployment.id }]
        | (Except.error Err.notFound, s) =>
            s.createStage stage_name deployment.id stage_description
        | (Except.error e, s) => (Except.error e, s)
      match stageResult with
      | Except.error e => (Except.error e, s)
      | Except.ok stage =>
          (Except.ok
            { deployment, stage,
              url := "https://" ++ apiId ++ ".execute-api." ++ g.region
                ++ ".amazonaws.com/" ++ stage_name }, s)

/-- The parameter dicts of the `put_integration` calls recorded in a trace. -/
def putIntegrationParamsSent (calls : List RemoteCall) :
    List (List (String × Value)) :=
  calls.filterMap (fun c => match c with
    | RemoteCall.putIntegration p => some p
    | _ => none)

/-- Number of remote `create_resource` calls in a trace. -/
def countCreateResource (calls : List RemoteCall) : Nat :=
  calls.countP (fun c => match c with
    | RemoteCall.createResource _ _ => true
    | _ => false)

/-- Number of remote `put_integration` calls in a trace. -/
def countPutIntegration (calls : List RemoteCall) : Nat :=
  calls.countP (fun c => match c with
    | RemoteCall.putIntegration _ => true
    | _ => false)

/-! ## Sample concrete inputs (used by the witnesses) -/

/-- A small remote state: one api with just the root resource. -/
def sampleState : AWSState :=
  { resources := [{ id := "root", parentId := none, pathPart := none, path := "/" }],
    deployments := [], stages := [], nextId := 0, calls := [], stageFault := none }

/-- A client for api id `api1` in `us-east-1`. -/
def sampleGateway : APIGateway :=
  { region := "us-east-1", api_id := some "api1", resourcesCache := [] }

/-- A handle on the root resource of `sampleState`. -/
def sampleRoot : APIResource := APIResource.mk' "api1" "root" "/"

/-- An existing stage record with a description and variables. -/
def sampleOldStage : Stage :=
  { stageName := "dev", deploymentId := "depOld", description := "old stage",
    stageVariables := [("k", "v")] }

/-- The sample state with `sampleOldStage` already present. -/
def sampleStageState : AWSState :=
  { sampleState with stages := [sampleOldStage] }

/-- The sample state with a non-NotFound fault injected on the stage API. -/
def sampleFaultState : AWSState :=
  { sampleState with stageFault := some "boom" }

/-- A root handle on which `GET` has been registered. -/
def sampleGetNode : APIResource :=
  { api_id := "api1", resource_id := "root", path := "/",
    methods := [("GET", Value.strMap [("httpMethod", "GET")])] }

/-- A root handle whose methods dict holds the (degenerate) empty verb. -/
def emptyVerbNode : APIResource :=
  { api_id := "api1", resource_id := "root", path := "/",
    methods := [("", Value.strMap [])] }

/-! ## Helper lemmas -/

theorem countCreateResource_append (l₁ l₂ : List RemoteCall) :
    countCreateResource (l₁ ++ l₂) =
      countCreateResource l₁ + countCreateResource l₂ :=
  List.countP_append ..

theorem countPutIntegration_append (l₁ l₂ : List RemoteCall) :
    countPutIntegration (l₁ ++ l₂) =
      countPutIntegration l₁ + countPutIntegration l₂ :=
  List.countP_append ..

theorem findChild_append (items₁ items₂ : List RemoteResource) (p pp : String) :
    findChild (items₁ ++ items₂) p pp =
      (findChild items₁ p pp).or (findChild items₂ p pp) :=
  List.find?_append

theorem dictGet_dictSet_self {β : Type} (d : List (String × β)) (k : String)
    (v : β) : dictGet (dictSet d k v) k = some v := by
  induction d with
  | nil => simp [dictGet, dictSet]
  | cons p rest ih =>
      obtain ⟨k', v'⟩ := p
      by_cases h : k' = k
      · simp [dictGet, dictSet, h]
      · simp only [dictSet, if_neg h]
        simpa [dictGet, List.find?_cons, h] using ih

theorem dictGet_dictSet_ne {β : Type} (d : List (String × β)) (k k' : String)
    (v : β) (h : k' ≠ k) : dictGet (dictSet d k v) k' = dictGet d k' := by
  induction d with
  | nil => simp [dictGet, dictSet, List.find?_cons, Ne.symm h]
  | cons p rest ih =>
      obtain ⟨a, b⟩ := p
      by_cases ha : a = k
      · subst ha
        simp [dictGet, dictSet, List.find?_cons, Ne.symm h]
      · simp only [dictSet, if_neg ha]
        by_cases ha' : a = k'
        · simp [dictGet, List.find?_cons, ha']
        · simpa [dictGet, List.find?_cons, ha'] using ih

theorem mem_dictKeys_dictSet {β : Type} (d : List (String × β)) (k a : String)
    (v : β) : a ∈ dictKeys (dictSet d k v) ↔ a ∈ dictKeys d ∨ a = k := by
  induction d with
  | nil => simp [dictKeys, dictSet]
  | cons p rest ih =>
      obtain ⟨b, c⟩ := p
      by_cases hb : b = k
      · subst hb
        simp [dictSet, dictKeys]
        tauto
      · simp only [dictSet, if_neg hb, dictKeys, List.map_cons, List.mem_cons]
        rw [show List.map Prod.fst (dictSet rest k v) =
          dictKeys (dictSet rest k v) from rfl, ih]
        tauto

theorem mem_dictKeys_ite {β : Type} (cond : Prop) [Decidable cond]
    (d : List (String × β)) (k a : String) (v : β)
    (h : a ∈ dictKeys (if cond then dictSet d k v else d)) :
    a ∈ dictKeys d ∨ a = k := by
  split at h
  · exact (mem_dictKeys_dictSet ..).mp h
  · exact Or.inl h

theorem upperChar_idem (c : Char) : upperChar (upperChar c) = upperChar c := by
  by_cases h : 97 ≤ c.toNat ∧ c.toNat ≤ 122
  · have ht : (Char.ofNat (c.toNat - 32)).toNat = c.toNat - 32 := by
      have hv : Nat.isValidChar (c.toNat - 32) := Or.inl (by omega)
      simp only [Char.ofNat, hv, dif_pos]
      rfl
    simp only [upperChar, if_pos h]
    rw [if_neg (by rw [ht]; omega)]
  · simp only [upperChar, if_neg h]

theorem pyUpper_idem (s : String) : pyUpper (pyUpper s) = pyUpper s := by
  simp only [pyUpper, List.map_map]
  exact congrArg String.mk
    (List.map_congr_left (fun c _ => upperChar_idem c))

theorem pyUpper_eq_empty_iff (s : String) : pyUpper s = "" ↔ s = "" := by
  constructor
  · intro h
    have hd := congrArg String.data h
    simp only [pyUpper] at hd
    have hnil : s.data = [] := List.map_eq_nil_iff.mp hd
    cases s
    cases hnil
    rfl
  · intro h
    cases h
    rfl

theorem camelOf_of_valid : ∀ c ∈ validParams, camelOf c = c := by decide

theorem filterKwargs_append (p : List (String × Value)) (w : List String)
    (l₁ l₂ : List (String × Value)) :
    filterKwargs p w (l₁ ++ l₂) =
      filterKwargs (filterKwargs p w l₁).1 (filterKwargs p w l₁).2 l₂ := by
  induction l₁ generalizing p w with
  | nil => simp [filterKwargs]
  | cons kv rest ih =>
      by_cases h : camelOf kv.1 ∈ validParams
      · simp only [List.cons_append, filterKwargs, if_pos h]
        exact ih ..
      · simp only [List.cons_append, filterKwargs, if_neg h]
        exact ih ..

theorem filterKwargs_get_of_not_valid (p : List (String × Value))
    (w : List String) (kwargs : List (String × Value)) (c : String)
    (hc : c ∉ validParams) :
    dictGet (filterKwargs p w kwargs).1 c = dictGet p c := by
  induction kwargs generalizing p w with
  | nil => simp [filterKwargs]
  | cons kv rest ih =>
      by_cases h : camelOf kv.1 ∈ validParams
      · simp only [filterKwargs, if_pos h]
        rw [ih]
        exact dictGet_dictSet_ne p (camelOf kv.1) c kv.2 (fun he => hc (he ▸ h))
      · simp only [filterKwargs, if_neg h]
        exact ih ..

theorem filterKwargs_get_preserved (p : List (String × Value))
    (w : List String) (kwargs : List (String × Value)) (c : String)
    (hkw : ∀ kv ∈ kwargs, camelOf kv.1 ≠ c) :
    dictGet (filterKwargs p w kwargs).1 c = dictGet p c := by
  induction kwargs generalizing p w with
  | nil => simp [filterKwargs]
  | cons kv rest ih =>
      have hkv : camelOf kv.1 ≠ c := hkw kv (List.mem_cons_self ..)
      have hrest : ∀ kv ∈ rest, camelOf kv.1 ≠ c :=
        fun x hx => hkw x (List.mem_cons_of_mem _ hx)
      by_cases h : camelOf kv.1 ∈ validParams
      · simp only [filterKwargs, if_pos h]
        rw [ih _ _ hrest]
        exact dictGet_dictSet_ne p (camelOf kv.1) c kv.2 (Ne.symm hkv)
      · simp only [filterKwargs, if_neg h]
        exact ih _ _ hrest

theorem filterKwargs_not_mem_keys (p : List (String × Value))
    (w : List String) (kwargs : List (String × Value)) (c : String)
    (hc : c ∉ validParams) (h0 : c ∉ dictKeys p) :
    c ∉ dictKeys (filterKwargs p w kwargs).1 := by
  induction kwargs generalizing p w with
  | nil => simpa [filterKwargs] using h0
  | cons kv rest ih =>
      by_cases h : camelOf kv.1 ∈ validParams
      · simp only [filterKwargs, if_pos h]
        refine ih _ _ ?_
        rw [mem_dictKeys_dictSet]
        rintro (hmem | hmem)
        · exact h0 hmem
        · exact hc (hmem ▸ h)
      · simp only [filterKwargs, if_neg h]
        exact ih _ _ h0

theorem filterKwargs_warnings_mono (p : List (String × Value))
    (w : List String) (kwargs : List (String × Value)) (x : String)
    (hx : x ∈ w) : x ∈ (filterKwargs p w kwargs).2 := by
  induction kwargs generalizing p w with
  | nil => simpa [filterKwargs] using hx
  | cons kv rest ih =>
      by_cases h : camelOf kv.1 ∈ validParams
      · simp only [filterKwargs, if_pos h]
        exact ih _ _ hx
      · simp only [filterKwargs, if_neg h]
        exact ih _ _ (List.mem_append_left _ hx)

theorem filterKwargs_warning_of_dropped (p : List (String × Value))
    (w : List String) (kwargs : List (String × Value)) (k : String) (v : Value)
    (hmem : (k, v) ∈ kwargs) (hk : camelOf k ∉ validParams) :
    ("Warning: Ignoring invalid parameter " ++ k ++ " for put_integration")
      ∈ (filterKwargs p w kwargs).2 := by
  induction kwargs generalizing p w with
  | nil => cases hmem
  | cons kv rest ih =>
      rcases List.mem_cons.mp hmem with heq | htail
      · cases heq
        simp only [filterKwargs, if_neg hk]
        exact filterKwargs_warnings_mono _ _ _ _
          (List.mem_append_right _ (List.mem_singleton.mpr rfl))
      · by_cases h : camelOf kv.1 ∈ validParams
        · simp only [filterKwargs, if_pos h]
          exact ih _ _ htail
        · simp only [filterKwargs, if_neg h]
          exact ih _ _ htail

theorem mem_dictKeys_baseParams (r : APIResource)
    (http_method integration_type : String)
    (integration_http_method uri credentials : Option String) (a : String)
    (ha : a ∈ dictKeys (baseParams r http_method integration_type
            integration_http_method uri credentials)) :
    a ∈ ["restApiId", "resourceId", "httpMethod", "type", "uri",
         "integrationHttpMethod", "credentials"] := by
  simp only [baseParams] at ha
  rcases mem_dictKeys_ite _ _ _ _ _ ha with h₁ | rfl
  · rcases mem_dictKeys_ite _ _ _ _ _ h₁ with h₂ | rfl
    · rcases mem_dictKeys_ite _ _ _ _ _ h₂ with h₃ | rfl
      · simp only [dictKeys, List.map_cons, List.map_nil, List.mem_cons,
          List.not_mem_nil, or_false] at h₃
        simp only [List.mem_cons, List.not_mem_nil, or_false]
        tauto
      · simp
    · simp
  · simp

/-- Branch lemma: when the scan finds an existing (parent, pathPart) child,
`create_resource` returns a handle on it and only the listing call is issued. -/
theorem create_resource_eq_of_found (s : AWSState) (g : APIGateway)
    (parent : APIResource) (path_part apiId : String) (item : RemoteResource)
    (hapi : g.api_id = some apiId)
    (hfound : findChild s.resources parent.resource_id path_part = some item) :
    APIGateway.create_resource s g parent path_part =
      (Except.ok (APIResource.mk' apiId item.id item.path, g),
       { s with calls := s.calls ++ [RemoteCall.getResources] }) := by
  simp only [APIGateway.create_resource, hapi, AWSState.getResources, hfound]

/-- Branch lemma: when no (parent, pathPart) child is listed and the parent
record exists remotely, `create_resource` creates the child: fresh id, full
path computed from the parent handle's path, handle cached, record appended. -/
theorem create_resource_eq_of_not_found (s : AWSState) (g : APIGateway)
    (parent : APIResource) (path_part apiId : String) (parentRec : RemoteResource)
    (hapi : g.api_id = some apiId)
    (hnew : findChild s.resources parent.resource_id path_part = none)
    (hfind : s.resources.find? (fun r => r.id = parent.resource_id) = some parentRec) :
    APIGateway.create_resource s g parent path_part =
      (Except.ok
        (APIResource.mk' apiId ("res" ++ toString s.nextId)
          (joinPath parent.path path_part),
         { g with resourcesCache := dictSet g.resourcesCache
                      ("res" ++ toString s.nextId)
                      (APIResource.mk' apiId ("res" ++ toString s.nextId)
                        (joinPath parent.path path_part)) }),
       { s with
          resources := s.resources ++
            [{ id := "res" ++ toString s.nextId,
               parentId := some parent.resource_id,
               pathPart := some path_part,
               path := if parentRec.path = "/" then "/" ++ path_part
                       else parentRec.path ++ "/" ++ path_part }],
          nextId := s.nextId + 1,
          calls := s.calls ++
            [RemoteCall.getResources,
             RemoteCall.createResource parent.resource_id path_part] }) := by
  simp only [APIGateway.create_resource, hapi, AWSState.getResources, hnew,
    AWSState.createResource, hfind, List.append_assoc, List.cons_append,
    List.nil_append]

/-! ## C3: full-path composition -/

/-- C3: the node created by `create_resource` (when no existing child is
found) has `fullPath` equal to the parent's path joined with the path part by
a single `/`: a root parent yields `/pathPart`, a non-root parent has all
trailing `/` trimmed before joining. -/
theorem create_resource_fullPath (s : AWSState) (g : APIGateway)
    (parent : APIResource) (path_part apiId : String)
    (hapi : g.api_id = some apiId)
    (hnew : findChild s.resources parent.resource_id path_part = none)
    (hparent : (s.resources.find? (fun r => r.id = parent.resource_id)).isSome) :
    ∃ r g' s',
      APIGateway.create_resource s g parent path_part = (Except.ok (r, g'), s') ∧
      r.path = (if parent.path = "/" then "/" ++ path_part
                else rstripSlash parent.path ++ "/" ++ path_part) := by
  obtain ⟨parentRec, hfind⟩ := Option.isSome_iff_exists.mp hparent
  refine ⟨_, _, _,
    create_resource_eq_of_not_found s g parent path_part apiId parentRec
      hapi hnew hfind, ?_⟩
  simp only [APIResource.mk', joinPath]
  by_cases hroot : parent.path = "/"
  · simp [hroot]
  · simp [hroot]

/-- Witness for C3 at a non-root parent with a trailing slash:
parent path `/jobs/` and path part `{jobId}` give `/jobs/{jobId}`. -/
theorem create_resource_fullPath_witness :
    ∃ r g' s',
      APIGateway.create_resource sampleState sampleGateway
        ( APIResource.mk' "api1" "root" "/jobs/") "{jobId}" = (Except.ok (r, g'), s') ∧
      r.path = (if ("/jobs/" : String) = "/" then "/" ++ "{jobId}"
                else rstripSlash "/jobs/" ++ "/" ++ "{jobId}") :=
  create_resource_fullPath sampleState sampleGateway
    ( APIResource.mk' "api1" "root" "/jobs/") "{jobId}" "api1" rfl (by decide) (by decide)

/-! ## C4: integration on an unregistered verb -/

/-- C4: when the uppercased verb is not a key of the node's `methods` dict,
`add_integration` fails with the method-not-found `ValueError`, leaves the
remote state untouched, and in particular issues no `put_integration` call. -/
theorem add_integration_method_not_found (s : AWSState) (r : APIResource)
    (http_method integration_type : String)
    (integration_http_method uri credentials : Option String)
    (kwargs : List (String × Value))
    (h : pyUpper http_method ∉ dictKeys r.methods) :
    APIResource.add_integration s r http_method integration_type
        integration_http_method uri credentials kwargs =
      (Except.error (Err.valueError
        ("Method " ++ http_method ++ " not found on resource " ++ r.path)), s, []) ∧
    countPutIntegration (APIResource.add_integration s r http_method
        integration_type integration_http_method uri credentials kwargs).2.1.calls =
      countPutIntegration s.calls := by
  constructor
  · simp only [APIResource.add_integration, if_pos h]
  · simp only [APIResource.add_integration, if_pos h]

/-- Witness for C4: `POST` was never registered on the sample root node. -/
theorem add_integration_method_not_found_witness :
    (APIResource.add_integration sampleState sampleRoot "POST" "MOCK"
        none none none [] =
      (Except.error (Err.valueError
        ("Method " ++ "POST" ++ " not found on resource " ++ sampleRoot.path)),
        sampleState, []) ∧
    countPutIntegration (APIResource.add_integration sampleState sampleRoot "POST"
        "MOCK" none none none []).2.1.calls =
      countPutIntegration sampleState.calls) :=
  add_integration_method_not_found sampleState sampleRoot "POST" "MOCK"
    none none none [] (by decide)

/-- Branch lemma: with the verb registered, `add_integration` issues exactly
`put_integration` (with the filtered parameters) and `put_integration_response`
and returns the collected warnings. -/
theorem add_integration_eq_of_registered (s : AWSState) (r : APIResource)
    (http_method integration_type : String)
    (integration_http_method uri credentials : Option String)
    (kwargs : List (String × Value))
    (hreg : pyUpper http_method ∈ dictKeys r.methods) :
    APIResource.add_integration s r http_method integration_type
        integration_http_method uri credentials kwargs =
      (Except.ok (Value.strMap [("status", "OK")]),
       { s with calls := s.calls ++
           [RemoteCall.putIntegration
              (filterKwargs (baseParams r http_method integration_type
                integration_http_method uri credentials) [] kwargs).1,
            RemoteCall.putIntegrationResponse r.resource_id
              (pyUpper http_method) "200"] },
       (filterKwargs (baseParams r http_method integration_type
         integration_http_method uri credentials) [] kwargs).2) := by
  simp only [APIResource.add_integration, if_neg (not_not_intro hreg),
    AWSState.putIntegration, AWSState.putIntegrationResponse,
    List.append_assoc, List.cons_append, List.nil_append]

/-! ## C1: idempotent resource creation -/

/-- C1: calling `create_resource` twice with the same (parent, pathPart)
yields handles with the same `resourceId`, the second call issues no remote
`create_resource` call and adds no resource record; and whenever the listing
already holds a matching item, the existing record is returned (no duplicate
is created). -/
theorem create_resource_idempotent (s : AWSState) (g : APIGateway)
    (parent : APIResource) (path_part apiId : String)
    (hapi : g.api_id = some apiId)
    (hparent : (s.resources.find? (fun r => r.id = parent.resource_id)).isSome) :
    (∃ r₁ g₁ s₁ r₂ g₂ s₂,
      APIGateway.create_resource s g parent path_part = (Except.ok (r₁, g₁), s₁) ∧
      APIGateway.create_resource s₁ g₁ parent path_part = (Except.ok (r₂, g₂), s₂) ∧
      r₂.resource_id = r₁.resource_id ∧
      countCreateResource s₂.calls = countCreateResource s₁.calls ∧
      s₂.resources = s₁.resources) ∧
    (∀ item : RemoteResource,
      findChild s.resources parent.resource_id path_part = some item →
      APIGateway.create_resource s g parent path_part =
        (Except.ok (APIResource.mk' apiId item.id item.path, g),
         { s with calls := s.calls ++ [RemoteCall.getResources] })) := by
  constructor
  · cases hscan : findChild s.resources parent.resource_id path_part with
    | some item =>
        refine ⟨_, _, _, _, _, _,
          create_resource_eq_of_found s g parent path_part apiId item hapi hscan,
          create_resource_eq_of_found _ g parent path_part apiId item hapi hscan,
          rfl, ?_, rfl⟩
        simp [countCreateResource_append, countCreateResource]
    | none =>
        obtain ⟨parentRec, hfind⟩ := Option.isSome_iff_exists.mp hparent
        have hscan' : findChild
            (s.resources ++
              [{ id := "res" ++ toString s.nextId,
                 parentId := some parent.resource_id,
                 pathPart := some path_part,
                 path := if parentRec.path = "/" then "/" ++ path_part
                         else parentRec.path ++ "/" ++ path_part }])
            parent.resource_id path_part =
            some { id := "res" ++ toString s.nextId,
                   parentId := some parent.resource_id,
                   pathPart := some path_part,
                   path := if parentRec.path = "/" then "/" ++ path_part
                           else parentRec.path ++ "/" ++ path_part } := by
          rw [findChild_append, hscan]
          simp [findChild]
        refine ⟨_, _, _, _, _, _,
          create_resource_eq_of_not_found s g parent path_part apiId parentRec
            hapi hscan hfind,
          create_resource_eq_of_found _ _ parent path_part apiId _ hapi hscan',
          rfl, ?_, rfl⟩
        simp [countCreateResource_append, countCreateResource]
  · intro item hfound
    exact create_resource_eq_of_found s g parent path_part apiId item hapi hfound

/-- Witness for C1: creating `jobs` under the sample root twice. -/
theorem create_resource_idempotent_witness :
    (∃ r₁ g₁ s₁ r₂ g₂ s₂,
      APIGateway.create_resource sampleState sampleGateway sampleRoot "jobs" =
        (Except.ok (r₁, g₁), s₁) ∧
      APIGateway.create_resource s₁ g₁ sampleRoot "jobs" = (Except.ok (r₂, g₂), s₂) ∧
      r₂.resource_id = r₁.resource_id ∧
      countCreateResource s₂.calls = countCreateResource s₁.calls ∧
      s₂.resources = s₁.resources) ∧
    (∀ item : RemoteResource,
      findChild sampleState.resources sampleRoot.resource_id "jobs" = some item →
      APIGateway.create_resource sampleState sampleGateway sampleRoot "jobs" =
        (Except.ok ( APIResource.mk' "api1" item.id item.path, sampleGateway),
         { sampleState with
            calls := sampleState.calls ++ [RemoteCall.getResources] })) :=
  create_resource_idempotent sampleState sampleGateway sampleRoot "jobs" "api1"
    rfl (by decide)

/-! ## Branch lemmas for `deploy_to_stage` -/

/-- Branch lemma: with a healthy stage API and no stage of the given name,
`deploy_to_stage` first creates the deployment, then looks the stage up, then
creates the stage bound to the fresh deployment. -/
theorem deploy_to_stage_eq_of_absent (s : AWSState) (g : APIGateway)
    (stage_name stage_description description apiId : String)
    (hapi : g.api_id = some apiId)
    (hok : s.stageFault = none)
    (habsent : s.stages.find? (fun st => st.stageName = stage_name) = none) :
    APIGateway.deploy_to_stage s g stage_name stage_description description =
      (Except.ok
        { deployment := { id := "dep" ++ toString s.nextId, description },
          stage := { stageName := stage_name,
                     deploymentId := "dep" ++ toString s.nextId,
                     description := stage_description, stageVariables := [] },
          url := "https://" ++ apiId ++ ".execute-api." ++ g.region
            ++ ".amazonaws.com/" ++ stage_name },
       { s with
          deployments := s.deployments ++
            [{ id := "dep" ++ toString s.nextId, description }],
          stages := s.stages ++
            [{ stageName := stage_name,
               deploymentId := "dep" ++ toString s.nextId,
               description := stage_description, stageVariables := [] }],
          nextId := s.nextId + 1,
          calls := s.calls ++
            [RemoteCall.createDeployment description,
             RemoteCall.getStage stage_name,
             RemoteCall.createStage stage_name ("dep" ++ toString s.nextId)
               stage_description] }) := by
  simp only [APIGateway.deploy_to_stage, hapi, AWSState.createDeployment,
    AWSState.getStage, hok, habsent, AWSState.createStage, List.append_assoc,
    List.cons_append, List.nil_append]

/-- Branch lemma: with a healthy stage API and an existing stage of the given
name, `deploy_to_stage` creates the deployment and then patches exactly the
`/deploymentId` field of that stage. -/
theorem deploy_to_stage_eq_of_present (s : AWSState) (g : APIGateway)
    (stage_name stage_description description apiId : String) (st : Stage)
    (hapi : g.api_id = some apiId)
    (hok : s.stageFault = none)
    (hfound : s.stages.find? (fun t => t.stageName = stage_name) = some st) :
    APIGateway.deploy_to_stage s g stage_name stage_description description =
      (Except.ok
        { deployment := { id := "dep" ++ toString s.nextId, description },
          stage := { st with deploymentId := "dep" ++ toString s.nextId },
          url := "https://" ++ apiId ++ ".execute-api." ++ g.region
            ++ ".amazonaws.com/" ++ stage_name },
       { s with
          deployments := s.deployments ++
            [{ id := "dep" ++ toString s.nextId, description }],
          stages := s.stages.map (fun t =>
            if t.stageName = stage_name
            then { st with deploymentId := "dep" ++ toString s.nextId } else t),
          nextId := s.nextId + 1,
          calls := s.calls ++
            [RemoteCall.createDeployment description,
             RemoteCall.getStage stage_name,
             RemoteCall.updateStage stage_name
               [{ op := "replace", path := "/deploymentId",
                  value := "dep" ++ toString s.nextId }]] }) := by
  simp only [APIGateway.deploy_to_stage, hapi, AWSState.createDeployment,
    AWSState.getStage, hok, hfound, AWSState.updateStage, AWSState.applyPatchOp,
    List.foldl, List.append_assoc, List.cons_append, List.nil_append]
  simp [AWSState.applyPatchOp]

/-- Branch lemma: when the stage API fails with a non-NotFound error, the
deployment is still created and the failure is re-raised with nothing rolled
back: the stage table is untouched and no delete is issued. -/
theorem deploy_to_stage_eq_of_fault (s : AWSState) (g : APIGateway)
    (stage_name stage_description description apiId msg : String)
    (hapi : g.api_id = some apiId)
    (hfault : s.stageFault = some msg) :
    APIGateway.deploy_to_stage s g stage_name stage_description description =
      (Except.error (Err.remote msg),
       { s with
          deployments := s.deployments ++
            [{ id := "dep" ++ toString s.nextId, description }],
          nextId := s.nextId + 1,
          calls := s.calls ++
            [RemoteCall.createDeployment description,
             RemoteCall.getStage stage_name] }) := by
  simp only [APIGateway.deploy_to_stage, hapi, AWSState.createDeployment,
    AWSState.getStage, hfault, List.append_assoc, List.cons_append,
    List.nil_append]

/-! ## C2: publish twice to the same stage name -/

/-- C2: with no stage of the given name, the first publish creates the stage
and the second updates it in place; after each publish the stage points at
that call's freshly created deployment, and on every publish the deployment
is created before the stage lookup/upsert (visible in the call trace). -/
theorem deploy_to_stage_twice (s : AWSState) (g : APIGateway)
    (stage_name stage_description description apiId : String)
    (hapi : g.api_id = some apiId)
    (hok : s.stageFault = none)
    (habsent : s.stages.find? (fun st => st.stageName = stage_name) = none) :
    ∃ res₁ s₁ res₂ s₂,
      APIGateway.deploy_to_stage s g stage_name stage_description description =
        (Except.ok res₁, s₁) ∧
      APIGateway.deploy_to_stage s₁ g stage_name stage_description description =
        (Except.ok res₂, s₂) ∧
      s₁.stages = s.stages ++ [res₁.stage] ∧
      res₁.stage.stageName = stage_name ∧
      s₁.deployments = s.deployments ++ [res₁.deployment] ∧
      s₂.deployments = s₁.deployments ++ [res₂.deployment] ∧
      res₁.stage.deploymentId = res₁.deployment.id ∧
      res₂.stage.deploymentId = res₂.deployment.id ∧
      s₂.stages.map Stage.stageName = s₁.stages.map Stage.stageName ∧
      s₂.stages.find? (fun t => t.stageName = stage_name) = some res₂.stage ∧
      s₁.calls = s.calls ++
        [RemoteCall.createDeployment description,
         RemoteCall.getStage stage_name,
         RemoteCall.createStage stage_name res₁.deployment.id stage_description] ∧
      s₂.calls = s₁.calls ++
        [RemoteCall.createDeployment description,
         RemoteCall.getStage stage_name,
         RemoteCall.updateStage stage_name
           [{ op := "replace", path := "/deploymentId",
              value := res₂.deployment.id }]] := by
  have hne : ∀ t ∈ s.stages, ¬(t.stageName = stage_name) := by
    intro t ht
    have := List.find?_eq_none.mp habsent t ht
    simpa using this
  set st₁ : Stage :=
    { stageName := stage_name, deploymentId := "dep" ++ toString s.nextId,
      description := stage_description, stageVariables := [] } with hst₁
  have hfound₁ : (s.stages ++ [st₁]).find? (fun t => t.stageName = stage_name) =
      some st₁ := by
    rw [List.find?_append, habsent]
    simp [hst₁]
  refine ⟨_, _, _, _,
    deploy_to_stage_eq_of_absent s g stage_name stage_description description
      apiId hapi hok habsent,
    deploy_to_stage_eq_of_present _ g stage_name stage_description description
      apiId st₁ hapi hok hfound₁,
    rfl, rfl, rfl, rfl, rfl, rfl, ?_, ?_, rfl, rfl⟩
  · simp only [List.map_append, List.map_map]
    congr 1
    · refine List.map_congr_left (fun t ht => ?_)
      simp [Function.comp, if_neg (hne t ht)]
    · simp [hst₁]
  · rw [List.map_append, List.find?_append]
    have : (s.stages.map (fun t =>
        if t.stageName = stage_name
        then { st₁ with deploymentId := "dep" ++ toString (s.nextId + 1) }
        else t)) = s.stages := by
      refine (List.map_congr_left (fun t ht => ?_)).trans s.stages.map_id
      simp [if_neg (hne t ht)]
    rw [this, habsent]
    simp [hst₁]

/-- Witness for C2: publishing `dev` twice on the sample state. -/
theorem deploy_to_stage_twice_witness :
    ∃ res₁ s₁ res₂ s₂,
      APIGateway.deploy_to_stage sampleState sampleGateway "dev" "" "Deployment" =
        (Except.ok res₁, s₁) ∧
      APIGateway.deploy_to_stage s₁ sampleGateway "dev" "" "Deployment" =
        (Except.ok res₂, s₂) ∧
      s₁.stages = sampleState.stages ++ [res₁.stage] ∧
      res₁.stage.stageName = "dev" ∧
      s₁.deployments = sampleState.deployments ++ [res₁.deployment] ∧
      s₂.deployments = s₁.deployments ++ [res₂.deployment] ∧
      res₁.stage.deploymentId = res₁.deployment.id ∧
      res₂.stage.deploymentId = res₂.deployment.id ∧
      s₂.stages.map Stage.stageName = s₁.stages.map Stage.stageName ∧
      s₂.stages.find? (fun t => t.stageName = "dev") = some res₂.stage ∧
      s₁.calls = sampleState.calls ++
        [RemoteCall.createDeployment "Deployment",
         RemoteCall.getStage "dev",
         RemoteCall.createStage "dev" res₁.deployment.id ""] ∧
      s₂.calls = s₁.calls ++
        [RemoteCall.createDeployment "Deployment",
         RemoteCall.getStage "dev",
         RemoteCall.updateStage "dev"
           [{ op := "replace", path := "/deploymentId",
              value := res₂.deployment.id }]] :=
  deploy_to_stage_twice sampleState sampleGateway "dev" "" "Deployment" "api1"
    rfl rfl (by decide)

/-! ## C6: the update patches only the deployment id -/

/-- C6: when a stage of the given name exists, `deploy_to_stage` updates it
with exactly one `replace` patch on `/deploymentId`; the stage's name,
description and variables are unchanged, and the stage table is rewritten only
at that stage. -/
theorem deploy_to_stage_update_frame (s : AWSState) (g : APIGateway)
    (stage_name stage_description description apiId : String) (st : Stage)
    (hapi : g.api_id = some apiId)
    (hok : s.stageFault = none)
    (hfound : s.stages.find? (fun t => t.stageName = stage_name) = some st) :
    ∃ res s',
      APIGateway.deploy_to_stage s g stage_name stage_description description =
        (Except.ok res, s') ∧
      s'.calls = s.calls ++
        [RemoteCall.createDeployment description,
         RemoteCall.getStage stage_name,
         RemoteCall.updateStage stage_name
           [{ op := "replace", path := "/deploymentId",
              value := res.deployment.id }]] ∧
      res.stage.stageName = st.stageName ∧
      res.stage.description = st.description ∧
      res.stage.stageVariables = st.stageVariables ∧
      res.stage.deploymentId = res.deployment.id ∧
      s'.stages = s.stages.map (fun t =>
        if t.stageName = stage_name then res.stage else t) :=
  ⟨_, _,
    deploy_to_stage_eq_of_present s g stage_name stage_description description
      apiId st hapi hok hfound,
    rfl, rfl, rfl, rfl, rfl, rfl⟩

/-- Witness for C6: updating an existing `dev` stage with variables and a
description shows everything but `deploymentId` untouched. -/
theorem deploy_to_stage_update_frame_witness :
    ∃ res s',
      APIGateway.deploy_to_stage sampleStageState
        sampleGateway "dev" "" "Deployment" = (Except.ok res, s') ∧
      s'.calls = sampleStageState.calls ++
        [RemoteCall.createDeployment "Deployment",
         RemoteCall.getStage "dev",
         RemoteCall.updateStage "dev"
           [{ op := "replace", path := "/deploymentId",
              value := res.deployment.id }]] ∧
      res.stage.stageName = sampleOldStage.stageName ∧
      res.stage.description = sampleOldStage.description ∧
      res.stage.stageVariables = sampleOldStage.stageVariables ∧
      res.stage.deploymentId = res.deployment.id ∧
      s'.stages = sampleStageState.stages.map (fun t =>
        if t.stageName = "dev" then res.stage else t) :=
  deploy_to_stage_update_frame sampleStageState
    sampleGateway "dev" "" "Deployment" "api1" sampleOldStage
    rfl rfl (by decide)

/-! ## C8: stage failure leaves the fresh deployment orphaned -/

/-- C8: when the stage phase fails with an error other than NotFound after the
deployment was created, `deploy_to_stage` re-raises that error; the fresh
deployment stays (append-only, no rollback call is issued), the stage table is
untouched, and no stage points at the orphaned deployment. -/
theorem deploy_to_stage_fault_orphan (s : AWSState) (g : APIGateway)
    (stage_name stage_description description apiId msg : String)
    (hapi : g.api_id = some apiId)
    (hfault : s.stageFault = some msg)
    (hfree : ∀ st ∈ s.stages, st.deploymentId ≠ "dep" ++ toString s.nextId) :
    ∃ s',
      APIGateway.deploy_to_stage s g stage_name stage_description description =
        (Except.error (Err.remote msg), s') ∧
      s'.deployments = s.deployments ++
        [{ id := "dep" ++ toString s.nextId, description }] ∧
      s'.stages = s.stages ∧
      (∀ st ∈ s'.stages, st.deploymentId ≠ "dep" ++ toString s.nextId) ∧
      s'.calls = s.calls ++
        [RemoteCall.createDeployment description,
         RemoteCall.getStage stage_name] :=
  ⟨_,
    deploy_to_stage_eq_of_fault s g stage_name stage_description description
      apiId msg hapi hfault,
    rfl, rfl, hfree, rfl⟩

/-- Witness for C8: a faulted stage API on the sample state. -/
theorem deploy_to_stage_fault_orphan_witness :
    ∃ s',
      APIGateway.deploy_to_stage sampleFaultState
        sampleGateway "dev" "" "Deployment" = (Except.error (Err.remote "boom"), s') ∧
      s'.deployments = sampleFaultState.deployments ++
        [{ id := "dep" ++ toString sampleFaultState.nextId,
           description := "Deployment" }] ∧
      s'.stages = sampleFaultState.stages ∧
      (∀ st ∈ s'.stages, st.deploymentId ≠
        "dep" ++ toString sampleFaultState.nextId) ∧
      s'.calls = sampleFaultState.calls ++
        [RemoteCall.createDeployment "Deployment",
         RemoteCall.getStage "dev"] :=
  deploy_to_stage_fault_orphan sampleFaultState
    sampleGateway "dev" "" "Deployment" "api1" "boom" rfl rfl (by decide)

/-! ## C7: the deployment URL is built locally -/

/-- C7: every successful `deploy_to_stage` returns a url equal to the locally
constructed string `https:// ++ apiId ++ .execute-api. ++ region ++
.amazonaws.com/ ++ stageName`. -/
theorem deploy_to_stage_url (s : AWSState) (g : APIGateway)
    (stage_name stage_description description apiId : String)
    (res : DeployResult) (s' : AWSState)
    (hapi : g.api_id = some apiId)
    (h : APIGateway.deploy_to_stage s g stage_name stage_description description
          = (Except.ok res, s')) :
    res.url = "https://" ++ apiId ++ ".execute-api." ++ g.region
      ++ ".amazonaws.com/" ++ stage_name := by
  simp only [APIGateway.deploy_to_stage, hapi] at h
  split at h
  · exact absurd (congrArg Prod.fst h) (by simp)
  · rename_i stage heq
    obtain ⟨h1, -⟩ := Prod.mk.injEq .. ▸ h
    cases h1
    rfl

/-- Witness for C7: deploying `dev` on the sample state yields the locally
built URL. -/
theorem deploy_to_stage_url_witness :
    ({ deployment := { id := "dep0", description := "Deployment" },
       stage := { stageName := "dev", deploymentId := "dep0", description := "",
                  stageVariables := [] },
       url := "https://api1.execute-api.us-east-1.amazonaws.com/dev" }
      : DeployResult).url =
    "https://" ++ "api1" ++ ".execute-api." ++ sampleGateway.region
      ++ ".amazonaws.com/" ++ "dev" :=
  deploy_to_stage_url sampleState sampleGateway "dev" "" "Deployment" "api1"
    _ (APIGateway.deploy_to_stage sampleState sampleGateway "dev" "" "Deployment").2
    rfl rfl

/-! ## C5: kwargs translation and whitelist -/

/-- C5 counterexample to the claim as stated: passing the unrecognized option
key `restApiId` does emit a warning and drop the option's value, yet the key
`restApiId` still appears in the outgoing `put_integration` parameters
(as the base field carrying the client's own api id). -/
theorem add_integration_unrecognized_key_cex :
    camelOf "restApiId" ∉ validParams ∧
    (APIResource.add_integration sampleState sampleGetNode "GET" "MOCK"
        none none none [("restApiId", Value.str "evil")]).2.2 =
      ["Warning: Ignoring invalid parameter restApiId for put_integration"] ∧
    putIntegrationParamsSent (APIResource.add_integration sampleState
        sampleGetNode "GET" "MOCK" none none none
        [("restApiId", Value.str "evil")]).2.1.calls =
      [[("restApiId", Value.str "api1"), ("resourceId", Value.str "root"),
        ("httpMethod", Value.str "GET"), ("type", Value.str "MOCK"),
        ("integrationHttpMethod", Value.str "GET")]] ∧
    "restApiId" ∈ dictKeys
      [("restApiId", Value.str "api1"), ("resourceId", Value.str "root"),
       ("httpMethod", Value.str "GET"), ("type", Value.str "MOCK"),
       ("integrationHttpMethod", Value.str "GET")] := by
  decide

/-- C5 (amended): `request_templates` is forwarded as the wire field
`requestTemplates`; an unrecognized option key is dropped with a warning, its
value is not forwarded, and the key appears in the outgoing parameters only if
it coincides with one of the base parameter names the method itself sets. -/
theorem add_integration_kwargs_whitelist (s : AWSState) (r : APIResource)
    (http_method integration_type : String)
    (integration_http_method uri credentials : Option String)
    (l₁ l₂ : List (String × Value)) (v : Value) (k : String) (w : Value)
    (hreg : pyUpper http_method ∈ dictKeys r.methods)
    (hl₂ : ∀ kv ∈ l₂, camelOf kv.1 ≠ "requestTemplates")
    (hkmem : (k, w) ∈ l₁ ++ ("request_templates", v) :: l₂)
    (hk : camelOf k ∉ validParams)
    (hkbase : k ∉ ["restApiId", "resourceId", "httpMethod", "type", "uri",
                   "integrationHttpMethod", "credentials"]) :
    ∃ params warnings s',
      APIResource.add_integration s r http_method integration_type
          integration_http_method uri credentials
          (l₁ ++ ("request_templates", v) :: l₂) =
        (Except.ok (Value.strMap [("status", "OK")]), s', warnings) ∧
      s'.calls = s.calls ++
        [RemoteCall.putIntegration params,
         RemoteCall.putIntegrationResponse r.resource_id
           (pyUpper http_method) "200"] ∧
      dictGet params "requestTemplates" = some v ∧
      k ∉ dictKeys params ∧
      ("Warning: Ignoring invalid parameter " ++ k ++ " for put_integration")
        ∈ warnings := by
  refine ⟨_, _, _,
    add_integration_eq_of_registered s r http_method integration_type
      integration_http_method uri credentials _ hreg,
    rfl, ?_, ?_, ?_⟩
  · rw [filterKwargs_append]
    have hrt : camelOf "request_templates" ∈ validParams := by decide
    simp only [filterKwargs, if_pos hrt]
    rw [filterKwargs_get_preserved _ _ _ _ hl₂]
    rw [show camelOf "request_templates" = "requestTemplates" from rfl]
    exact dictGet_dictSet_self ..
  · have hk' : k ∉ validParams := fun hkv =>
      hk ((camelOf_of_valid k hkv).symm ▸ hkv)
    refine filterKwargs_not_mem_keys _ _ _ _ hk' ?_
    intro hmem
    exact hkbase (mem_dictKeys_baseParams r http_method integration_type
      integration_http_method uri credentials k hmem)
  · exact filterKwargs_warning_of_dropped _ _ _ k w hkmem hk

/-- Witness for C5 (amended): forwarding `request_templates` and dropping the
unrecognized `bogus` option. -/
theorem add_integration_kwargs_whitelist_witness :
    ∃ params warnings s',
      APIResource.add_integration sampleState sampleGetNode "GET" "MOCK"
          none none none
          ([] ++ ("request_templates",
            Value.strMap [("application/json", "tpl")]) ::
              [("bogus", Value.str "x")]) =
        (Except.ok (Value.strMap [("status", "OK")]), s', warnings) ∧
      s'.calls = sampleState.calls ++
        [RemoteCall.putIntegration params,
         RemoteCall.putIntegrationResponse sampleGetNode.resource_id
           (pyUpper "GET") "200"] ∧
      dictGet params "requestTemplates" =
        some (Value.strMap [("application/json", "tpl")]) ∧
      "bogus" ∉ dictKeys params ∧
      ("Warning: Ignoring invalid parameter " ++ "bogus" ++ " for put_integration")
        ∈ warnings :=
  add_integration_kwargs_whitelist sampleState sampleGetNode "GET" "MOCK"
    none none none [] [("bogus", Value.str "x")]
    (Value.strMap [("application/json", "tpl")]) "bogus" (Value.str "x")
    (by decide) (by decide) (by decide) (by decide) (by decide)

/-! ## C9: the backend verb defaults to the uppercased front verb -/

/-- C9 counterexample to the claim as stated: on the degenerate empty verb
(registered in the methods dict), Python truthiness makes the
`integration_http_method or http_method.upper()` default falsy, so the
outgoing `put_integration` call carries no `integrationHttpMethod` field at
all instead of the uppercased front verb. -/
theorem add_integration_default_backend_verb_cex :
    pyUpper "" ∈ dictKeys emptyVerbNode.methods ∧
    putIntegrationParamsSent (APIResource.add_integration sampleState
        emptyVerbNode "" "MOCK" none none none []).2.1.calls =
      [[("restApiId", Value.str "api1"), ("resourceId", Value.str "root"),
        ("httpMethod", Value.str ""), ("type", Value.str "MOCK")]] ∧
    dictGet
      [("restApiId", Value.str "api1"), ("resourceId", Value.str "root"),
       ("httpMethod", Value.str ""), ("type", Value.str "MOCK")]
      "integrationHttpMethod" = none := by
  decide

/-- C9 (amended): whenever no `integration_http_method` is supplied and the
(registered) verb is non-empty, the outgoing `put_integration` parameters
carry `integrationHttpMethod = http_method.upper()`. -/
theorem add_integration_default_backend_verb (s : AWSState) (r : APIResource)
    (http_method integration_type : String)
    (uri credentials : Option String) (kwargs : List (String × Value))
    (hreg : pyUpper http_method ∈ dictKeys r.methods)
    (hne : http_method ≠ "") :
    ∃ params warnings s',
      APIResource.add_integration s r http_method integration_type
          none uri credentials kwargs =
        (Except.ok (Value.strMap [("status", "OK")]), s', warnings) ∧
      s'.calls = s.calls ++
        [RemoteCall.putIntegration params,
         RemoteCall.putIntegrationResponse r.resource_id
           (pyUpper http_method) "200"] ∧
      dictGet params "integrationHttpMethod" =
        some (Value.str (pyUpper http_method)) := by
  refine ⟨_, _, _,
    add_integration_eq_of_registered s r http_method integration_type
      none uri credentials kwargs hreg,
    rfl, ?_⟩
  rw [filterKwargs_get_of_not_valid _ _ _ _ (by decide)]
  have hup : pyUpper http_method ≠ "" :=
    fun h => hne ((pyUpper_eq_empty_iff _).mp h)
  simp only [baseParams, orElseStr]
  by_cases hcred : truthy credentials = true
  · simp only [hcred, if_true]
    rw [dictGet_dictSet_ne _ _ _ _ (by decide)]
    rw [if_pos hup]
    exact dictGet_dictSet_self ..
  · simp only [hcred, if_false]
    rw [if_pos hup]
    exact dictGet_dictSet_self ..

/-- Witness for C9 (amended): verb `get` with no backend verb supplied yields
`integrationHttpMethod = GET`. -/
theorem add_integration_default_backend_verb_witness :
    ∃ params warnings s',
      APIResource.add_integration sampleState sampleGetNode "get" "MOCK"
          none none none [] =
        (Except.ok (Value.strMap [("status", "OK")]), s', warnings) ∧
      s'.calls = sampleState.calls ++
        [RemoteCall.putIntegration params,
         RemoteCall.putIntegrationResponse sampleGetNode.resource_id
           (pyUpper "get") "200"] ∧
      dictGet params "integrationHttpMethod" =
        some (Value.str (pyUpper "get")) :=
  add_integration_default_backend_verb sampleState sampleGetNode "get" "MOCK"
    none none [] (by decide) (by decide)

/-! ## C10: verbs are stored and looked up uppercased -/

/-- C10: `add_method` stores the verb uppercased, the all-keys-uppercase
invariant of the methods dict is preserved, and `add_integration` with any
verb of the same uppercasing passes the method-registered precondition (it
returns the success response, not the method-not-found error). -/
theorem add_method_stores_upper (s : AWSState) (r : APIResource) (v w : String)
    (hw : pyUpper w = pyUpper v) :
    pyUpper w ∈ dictKeys (APIResource.add_method s r v).1.2.methods ∧
    ((∀ k ∈ dictKeys r.methods, pyUpper k = k) →
      ∀ k ∈ dictKeys (APIResource.add_method s r v).1.2.methods,
        pyUpper k = k) ∧
    (∀ integration_type : String, ∀ uri credentials : Option String,
     ∀ kwargs : List (String × Value),
      (APIResource.add_integration (APIResource.add_method s r v).2
          (APIResource.add_method s r v).1.2 w integration_type none uri
          credentials kwargs).1 =
        Except.ok (Value.strMap [("status", "OK")])) := by
  have hmethods : (APIResource.add_method s r v).1.2.methods =
      dictSet r.methods (pyUpper v)
        (Value.strMap [("httpMethod", pyUpper v)]) := rfl
  have hmem : pyUpper w ∈ dictKeys (APIResource.add_method s r v).1.2.methods := by
    rw [hmethods, hw]
    exact (mem_dictKeys_dictSet ..).mpr (Or.inr rfl)
  refine ⟨hmem, ?_, ?_⟩
  · intro hinv k hk
    rw [hmethods] at hk
    rcases (mem_dictKeys_dictSet ..).mp hk with h | rfl
    · exact hinv k h
    · exact pyUpper_idem v
  · intro integration_type uri credentials kwargs
    rw [add_integration_eq_of_registered _ _ _ _ _ _ _ _ hmem]

/-- Witness for C10: registering `get` and attaching with `GeT`. -/
theorem add_method_stores_upper_witness :
    pyUpper "GeT" ∈
      dictKeys (APIResource.add_method sampleState sampleRoot "get").1.2.methods ∧
    ((∀ k ∈ dictKeys sampleRoot.methods, pyUpper k = k) →
      ∀ k ∈ dictKeys (APIResource.add_method sampleState sampleRoot "get").1.2.methods,
        pyUpper k = k) ∧
    (∀ integration_type : String, ∀ uri credentials : Option String,
     ∀ kwargs : List (String × Value),
      (APIResource.add_integration
          (APIResource.add_method sampleState sampleRoot "get").2
          (APIResource.add_method sampleState sampleRoot "get").1.2 "GeT"
          integration_type none uri credentials kwargs).1 =
        Except.ok (Value.strMap [("status", "OK")])) :=
  add_method_stores_upper sampleState sampleRoot "get" "GeT" (by decide)

end AwsGw
